import Mathlib

/-!
Verification development for the `pybuffer` package: a shallow embedding of
`buffer.py` (abstract `Buffer` with the automation/hook subsystem),
`ringbuffer.py` (`RingBuffer`), `queuebuffer.py` (`QueueBuffer`) and
`statebuffer.py` (`StateBuffer`), together with theorems settling the
specification's claims about them.

Modelling conventions:
* numpy elements are modelled as a declared shape together with a flat list
  of integer entries (`Item`); `ndarray.any()` is `Item.any`.
* Python exceptions are modelled with `PyErr`; an operation that can raise
  returns an `Except PyErr _` result paired with the object state that is
  left behind (Python objects keep mutations made before a raise).
* Python `%` on non-negative ints with positive modulus agrees with `Nat.mod`;
  the one negative index the source can produce (`pointer - 1` with pointer
  `0`, used for automation-result addressing) is handled with Python's
  negative-index wraparound in `pySetCell`.
* hook callables are identified by numeric ids; a `HookEnv` gives each id its
  guard/action behaviour.  Actions receive the whole buffer object and may
  mutate it arbitrarily, as in the source.
-/

namespace PyBuffer

/-- Python exceptions raised by the modelled fragment. -/
inductive PyErr where
  | valueError
  | typeError
  | indexError
deriving DecidableEq

/-- A numpy array element: declared shape plus flat data.  A scalar is
shape `[]` with a single entry. -/
structure Item where
  shape : List Nat
  data : List Int
deriving DecidableEq

/-- The all-zero element of a given shape, as produced by `np.zeros`. -/
def zeroItem (shape : List Nat) : Item :=
  ⟨shape, List.replicate shape.prod 0⟩

/-- numpy `ndarray.any()`: true iff some entry is nonzero. -/
def Item.any (it : Item) : Bool :=
  it.data.any (fun x => x != 0)

/-- An argument passed to `write`: either something `np.asarray` turns into
an array of a definite shape (tuple / list / ndarray), or any other Python
object (rejected by the `isinstance` check). -/
inductive PyItem where
  | arrayLike (shape : List Nat) (data : List Int)
  | other
deriving DecidableEq

/-- A scalar write argument (a 0-d array holding `n`). -/
def mkScalar (n : Int) : PyItem := .arrayLike [] [n]

/-- A scalar element as stored in the buffer. -/
def scalarItem (n : Int) : Item := ⟨[], [n]⟩

/-- One entry of an `automations[event]` list: the tuple
`(condition, function, store_result_as)` appended by `add_automation`.
Callables are identified by numeric ids resolved through a `HookEnv`. -/
structure AutoEntry where
  cond : Option Nat
  fn : Nat
  resultCol : Option String
deriving DecidableEq

/-- The `self.automations` dictionary: one list of registered entries per
lifecycle event (`BEFORE_WRITE = 0`, `AFTER_WRITE = 1`, `BEFORE_READ = 2`,
`AFTER_READ = 3`). -/
structure Automations where
  beforeWrite : List AutoEntry
  afterWrite : List AutoEntry
  beforeRead : List AutoEntry
  afterRead : List AutoEntry
deriving DecidableEq

/-- Look up the entry list of one event (`self.automations[event]`). -/
def Automations.get (a : Automations) (event : Nat) : List AutoEntry :=
  if event = 0 then a.beforeWrite
  else if event = 1 then a.afterWrite
  else if event = 2 then a.beforeRead
  else a.afterRead

/-- Replace the entry list of one event. -/
def Automations.put (a : Automations) (event : Nat) (l : List AutoEntry) : Automations :=
  if event = 0 then { a with beforeWrite := l }
  else if event = 1 then { a with afterWrite := l }
  else if event = 2 then { a with beforeRead := l }
  else { a with afterRead := l }

/-- The state of a `pybuffer` object.  The fields up to `autos` come from
`Buffer.__init__`; `overWrite` is `QueueBuffer._over_write` and `nameSpace`
is `StateBuffer._namespace` (present only on those subclasses, defaulted
here so that one record covers every variant). -/
structure PB where
  size : Nat
  shape : List Nat
  isfull : Bool
  isempty : Bool
  wp : Nat
  rp : Nat
  buffer : List Item
  autoResults : List (String × List Int)
  autos : Automations
  overWrite : Bool
  nameSpace : Option (List String)
deriving DecidableEq

/-- `Buffer.__init__`: zero-filled slab, flags `_isfull = False`,
`_isempty = True`, both pointers at zero, no automations registered. -/
def bufferInit (size : Nat) (shape : List Nat) : PB :=
  ⟨size, shape, false, true, 0, 0, List.replicate size (zeroItem shape), [],
    ⟨[], [], [], []⟩, false, none⟩

/-- `Buffer.is_empty`: returns the `_isempty` flag. -/
def bufferIsEmpty (s : PB) : Bool := s.isempty

/-- `Buffer.is_full`: returns the `_isfull` flag. -/
def bufferIsFull (s : PB) : Bool := s.isfull

/-- `Buffer._advance_write_pointer`: `(wp + 1) % size`. -/
def advanceWritePointer (s : PB) : PB :=
  { s with wp := (s.wp + 1) % s.size }

/-- `Buffer._advance_read_pointer`: `(rp + 1) % size`. -/
def advanceReadPointer (s : PB) : PB :=
  { s with rp := (s.rp + 1) % s.size }

/-- `Buffer._retract_write_pointer`: Python `(wp - 1) % size`, which on
naturals (with positive `size`) equals `(wp + size - 1) % size`. -/
def retractWritePointer (s : PB) : PB :=
  { s with wp := (s.wp + s.size - 1) % s.size }

/-- `Buffer._retract_read_pointer`: Python `(rp - 1) % size`. -/
def retractReadPointer (s : PB) : PB :=
  { s with rp := (s.rp + s.size - 1) % s.size }

/-! ## RingBuffer (`ringbuffer.py`) -/

/-- `RingBuffer.__init__`: delegates to `Buffer.__init__`. -/
def ringInit (size : Nat) (shape : List Nat) : PB := bufferInit size shape

/-- `RingBuffer.is_full`: write pointer equals read pointer AND the element
at the read pointer has some nonzero entry (`.any()`) — the content
heuristic, not the `_isfull` flag. -/
def ringIsFull (s : PB) : Bool :=
  s.wp == s.rp && (s.buffer.getD s.rp (zeroItem s.shape)).any

/-- `RingBuffer.is_empty`: pointers coincide and `is_full` is false. -/
def ringIsEmpty (s : PB) : Bool :=
  s.wp == s.rp && !(ringIsFull s)

/-- `RingBuffer._write_operation`: reject non tuple/list/ndarray arguments
and shape mismatches with `ValueError` (leaving the state untouched);
otherwise store at the write pointer, advance the read pointer if the
buffer reports full, advance the write pointer, return `True`. -/
def ringWriteOp (s : PB) (item : PyItem) : Except PyErr Bool × PB :=
  match item with
  | .other => (.error .valueError, s)
  | .arrayLike shp d =>
    if shp ≠ s.shape then (.error .valueError, s)
    else
      let s1 := { s with buffer := s.buffer.set s.wp ⟨shp, d⟩ }
      let s2 := if ringIsFull s1 then advanceReadPointer s1 else s1
      (.ok true, advanceWritePointer s2)

/-- `RingBuffer._read_operation`: `None` when empty, otherwise the element
at the read pointer, advancing the read pointer. -/
def ringReadOp (s : PB) : Option Item × PB :=
  if ringIsEmpty s then (none, s)
  else (some (s.buffer.getD s.rp (zeroItem s.shape)), advanceReadPointer s)

/-- State left behind by a ring write (the mutation survives whether or not
the call raised). -/
def ringWriteS (s : PB) (item : PyItem) : PB := (ringWriteOp s item).2

/-- Perform `n` successive `_read_operation` calls, collecting the results. -/
def ringReadN : Nat → PB → List (Option Item) × PB
  | 0, s => ([], s)
  | n + 1, s =>
    let p := ringReadOp s
    let q := ringReadN n p.2
    (p.1 :: q.1, q.2)

/-! ## QueueBuffer (`queuebuffer.py`) -/

/-- `QueueBuffer.__init__`: `shape = () if shape is None else shape`, then
`Buffer.__init__`, then record the overwrite policy. -/
def queueInit (size : Nat) (shape : Option (List Nat)) (overWrite : Bool) : PB :=
  { bufferInit size (shape.getD []) with overWrite := overWrite }

/-- `QueueBuffer.is_empty`: the write pointer (acting as live count) is 0. -/
def queueIsEmpty (s : PB) : Bool := s.wp == 0

/-- `QueueBuffer.is_full`: the write pointer has reached the size. -/
def queueIsFull (s : PB) : Bool := decide (s.size ≤ s.wp)

/-- `QueueBuffer._advance_write_pointer`: increment only while below size. -/
def queueAdvanceWritePointer (s : PB) : PB :=
  if s.wp < s.size then { s with wp := s.wp + 1 } else s

/-- The overwrite shift `buffer[:-1] = buffer[1:]; buffer[-1] = item`:
drop the head, append the new item at the back.  On an empty slab
(capacity 0) Python raises at `buffer[-1]`; the specification requires a
positive capacity, so that state is outside the modelled fragment. -/
def shiftLeftPut (l : List Item) (x : Item) : List Item :=
  match l with
  | [] => []
  | _ :: t => t ++ [x]

/-- The read shift `buffer[:-1] = buffer[1:]`: drop the head and leave the
last slot holding its old value (now duplicated). -/
def shiftLeftKeepLast (l : List Item) : List Item :=
  match l with
  | [] => []
  | x :: t => t ++ [t.getLastD x]

/-- `QueueBuffer._write_operation`: validate type and shape; when full,
either shift-and-overwrite (overwrite enabled) or return `False` with no
mutation at all; otherwise place at the write pointer and advance it. -/
def queueWriteOp (s : PB) (item : PyItem) : Except PyErr Bool × PB :=
  match item with
  | .other => (.error .valueError, s)
  | .arrayLike shp d =>
    if shp ≠ s.shape then (.error .valueError, s)
    else if queueIsFull s then
      if s.overWrite then
        (.ok true, { s with buffer := shiftLeftPut s.buffer ⟨shp, d⟩ })
      else (.ok false, s)
    else
      (.ok true, queueAdvanceWritePointer { s with buffer := s.buffer.set s.wp ⟨shp, d⟩ })

/-- `QueueBuffer._read_operation`: `None` when empty; otherwise take the
front element, shift everything one slot toward the front, and decrement
the write pointer. -/
def queueReadOp (s : PB) : Option Item × PB :=
  if queueIsEmpty s then (none, s)
  else
    (some (s.buffer.getD 0 (zeroItem s.shape)),
      { s with buffer := shiftLeftKeepLast s.buffer, wp := s.wp - 1 })

/-- State left behind by a queue write. -/
def queueWriteS (s : PB) (item : PyItem) : PB := (queueWriteOp s item).2

/-- State left behind by a queue read. -/
def queueReadS (s : PB) : PB := (queueReadOp s).2

/-- Write a whole list of items in order. -/
def queueWriteAll (s : PB) (items : List PyItem) : PB :=
  items.foldl queueWriteS s

/-- Perform `n` successive queue `_read_operation` calls. -/
def queueReadN : Nat → PB → List (Option Item) × PB
  | 0, s => ([], s)
  | n + 1, s =>
    let p := queueReadOp s
    let q := queueReadN n p.2
    (p.1 :: q.1, q.2)

/-! ## StateBuffer (`statebuffer.py`) -/

/-- A position argument for `StateBuffer.write`/`read`: a Python int or a
string key. -/
inductive Position where
  | idx (i : Int)
  | key (k : String)
deriving DecidableEq

/-- `StateBuffer.__init__`: reject a namespace whose length differs from the
size, otherwise initialise the base buffer and record the namespace. -/
def stateInit (size : Nat) (shape : List Nat) (ns : Option (List String)) : Except PyErr PB :=
  match ns with
  | some l =>
    if l.length ≠ size then .error .valueError
    else .ok { bufferInit size shape with nameSpace := some l }
  | none => .ok (bufferInit size shape)

/-- `StateBuffer.write` (a full override of the public `write`; it triggers
no automations): keyed access requires a namespace and an existing key,
integer access requires no namespace and an in-bounds index; any other
combination raises. -/
def stateWrite (s : PB) (item : Item) (pos : Position) : Except PyErr Bool × PB :=
  match pos, s.nameSpace with
  | .key k, some ns =>
    match ns.findIdx? (fun x => x == k) with
    | some i => (.ok true, { s with buffer := s.buffer.set i item })
    | none => (.error .valueError, s)
  | .idx i, none =>
    if 0 ≤ i ∧ i < (s.size : Int) then (.ok true, { s with buffer := s.buffer.set i.toNat item })
    else (.error .indexError, s)
  | _, _ => (.error .valueError, s)

/-- `StateBuffer.read` (a full override of the public `read`; it triggers
no automations and never mutates the state). -/
def stateRead (s : PB) (pos : Position) : Except PyErr Item × PB :=
  match pos, s.nameSpace with
  | .key k, some ns =>
    match ns.findIdx? (fun x => x == k) with
    | some i => (.ok (s.buffer.getD i (zeroItem s.shape)), s)
    | none => (.error .valueError, s)
  | .idx i, none =>
    if 0 ≤ i ∧ i < (s.size : Int) then (.ok (s.buffer.getD i.toNat (zeroItem s.shape)), s)
    else (.error .indexError, s)
  | _, _ => (.error .valueError, s)

/-! ## Automation subsystem (`buffer.py`) -/

/-- Resolution of hook callable ids: each id has a guard reading and an
action mutating the whole buffer object and producing a result value. -/
structure HookEnv where
  runCond : Nat → PB → Bool
  runAct : Nat → PB → PB × Int

/-- Python dict assignment `d[k] = v` on the `_automation_results` dict
(update in place, or append preserving insertion order). -/
def dictset (d : List (String × List Int)) (k : String) (v : List Int) : List (String × List Int) :=
  if d.any (fun p => p.1 == k) then d.map (fun p => if p.1 == k then (k, v) else p)
  else d ++ [(k, v)]

/-- Python dict lookup `d[k]` (the modelled fragment only looks up columns
that were created at registration time). -/
def dictget (d : List (String × List Int)) (k : String) : List Int :=
  (d.find? (fun p => p.1 == k)).elim [] Prod.snd

/-- Python cell assignment `col[i] = v` with negative-index wraparound.
An index outside `[-len, len)` raises in Python and lies outside the
modelled fragment (left as the identity here). -/
def pySetCell (l : List Int) (i : Int) (v : Int) : List Int :=
  if 0 ≤ i then l.set i.toNat v
  else if 0 ≤ i + l.length then l.set (i + (l.length : Int)).toNat v
  else l

/-- One iteration of the `_trigger_automations` loop: run the guard (a
missing guard counts as true), run the action on the current state, and if
a result column is named store the result at the slot the event addresses
(`pointer - 1` for AFTER events, the pointer itself for BEFORE events). -/
def runEntry (env : HookEnv) (event : Nat) (s : PB) (e : AutoEntry) : PB :=
  if (match e.cond with | none => true | some c => env.runCond c s) then
    let pr := env.runAct e.fn s
    let s1 := pr.1
    match e.resultCol with
    | none => s1
    | some col =>
      let i : Int :=
        if event = 1 then (s1.wp : Int) - 1
        else if event = 3 then (s1.rp : Int) - 1
        else if event = 0 then (s1.wp : Int)
        else (s1.rp : Int)
      { s1 with autoResults := dictset s1.autoResults col (pySetCell (dictget s1.autoResults col) i pr.2) }
  else s

/-- `Buffer._trigger_automations`: run every registered entry of the event
in registration order.  (The entry list is read once at loop entry; actions
that mutate the registration lists mid-trigger are outside the modelled
fragment.) -/
def triggerAutomations (env : HookEnv) (event : Nat) (s : PB) : PB :=
  (s.autos.get event).foldl (runEntry env event) s

/-- A Python method signature: number of parameters (counting `self`) and
how many of them have defaults. -/
structure PySig where
  nparams : Nat
  ndefaults : Nat
deriving DecidableEq

/-- Whether a call with `nargs` positional arguments (counting `self`)
binds against the signature; a mismatch raises `TypeError`. -/
def pyAccepts (sig : PySig) (nargs : Nat) : Bool :=
  decide (sig.nparams - sig.ndefaults ≤ nargs) && decide (nargs ≤ sig.nparams)

/-- Signature of `RingBuffer._read_operation`: `(self)` only. -/
def ringReadOperationSig : PySig := ⟨1, 0⟩

/-- Signature of `QueueBuffer._read_operation`: `(self)` only. -/
def queueReadOperationSig : PySig := ⟨1, 0⟩

/-- `Buffer.write`: trigger BEFORE-WRITE hooks, delegate to the variant's
`_write_operation` (whose raise, if any, propagates with the post-hook
state), trigger AFTER-WRITE hooks, return the success flag. -/
def bufferWrite (env : HookEnv) (writeOp : PB → α → Except PyErr Bool × PB)
    (s : PB) (item : α) : Except PyErr Bool × PB :=
  let s1 := triggerAutomations env 0 s
  match writeOp s1 item with
  | (.error e, s2) => (.error e, s2)
  | (.ok b, s2) => (.ok b, triggerAutomations env 1 s2)

/-- `Buffer.read`: trigger BEFORE-READ hooks, then call
`self._read_operation(with_automation_results)` — two positional arguments
counting `self`.  If the subclass's `_read_operation` signature cannot bind
them Python raises `TypeError` at the call site, before the read algorithm
and the AFTER-READ hooks. -/
def bufferRead (env : HookEnv) (opSig : PySig) (op : PB → Option Item × PB)
    (s : PB) : Except PyErr (Option Item) × PB :=
  let s1 := triggerAutomations env 2 s
  if pyAccepts opSig 2 then
    let pr := op s1
    (.ok pr.1, triggerAutomations env 3 pr.2)
  else (.error .typeError, s1)

/-- The public `write` of a `RingBuffer` (inherited `Buffer.write`). -/
def ringWrite (env : HookEnv) (s : PB) (item : PyItem) : Except PyErr Bool × PB :=
  bufferWrite env ringWriteOp s item

/-- The public `write` of a `QueueBuffer` (inherited `Buffer.write`). -/
def queueWrite (env : HookEnv) (s : PB) (item : PyItem) : Except PyErr Bool × PB :=
  bufferWrite env queueWriteOp s item

/-- The public `read` of a `RingBuffer` (inherited `Buffer.read`). -/
def ringRead (env : HookEnv) (s : PB) : Except PyErr (Option Item) × PB :=
  bufferRead env ringReadOperationSig ringReadOp s

/-- The public `read` of a `QueueBuffer` (inherited `Buffer.read`). -/
def queueRead (env : HookEnv) (s : PB) : Except PyErr (Option Item) × PB :=
  bufferRead env queueReadOperationSig queueReadOp s

/-- Python `==` between a function object and one of the stored 3-tuples
`(condition, function, store_result_as)`: a function never compares equal
to a tuple, so the membership test `function not in self.automations[when]`
inside `add_automation` never finds a match. -/
def pyFuncEqEntry (_fid : Nat) (_e : AutoEntry) : Bool := false

/-- `Buffer._check_function_signature`: the callable must declare exactly
one parameter. -/
def checkFunctionSignature (sig : PySig) : Bool := sig.nparams == 1

/-- `Buffer._add_automation_results_column`: a fresh zero column of length
`size`. -/
def addAutomationResultsColumn (s : PB) (name : String) : PB :=
  { s with autoResults := dictset s.autoResults name (List.replicate s.size 0) }

/-- `Buffer.add_automation`: validate the event code and the callable's
arity, skip registration if the (never-succeeding) membership test fires,
otherwise append the `(condition, function, store_result_as)` tuple and
lazily create the named result column. -/
def addAutomation (s : PB) (fid : Nat) (fnSig : PySig) (whenEv : Nat)
    (cond : Option Nat) (storeResultAs : Option String) : Except PyErr PB :=
  if ¬ (whenEv = 2 ∨ whenEv = 0 ∨ whenEv = 3 ∨ whenEv = 1) then .error .valueError
  else if ¬ checkFunctionSignature fnSig then .error .valueError
  else if (s.autos.get whenEv).any (pyFuncEqEntry fid) then .ok s
  else
    let s1 := { s with autos := s.autos.put whenEv ((s.autos.get whenEv) ++ [⟨cond, fid, storeResultAs⟩]) }
    match storeResultAs with
    | some name => .ok (addAutomationResultsColumn s1 name)
    | none => .ok s1

/-- The write lifecycle as the specification words it: fire the BEFORE-WRITE
hook set, run the variant's placement algorithm, fire the AFTER-WRITE hook
set on success.  (Stated separately from `bufferWrite` so that each variant's
public `write` can be compared against it.) -/
def hookedWrite (env : HookEnv) (op : PB → α → Except PyErr Bool × PB)
    (s : PB) (x : α) : Except PyErr Bool × PB :=
  let s1 := triggerAutomations env 0 s
  match op s1 x with
  | (.error e, s2) => (.error e, s2)
  | (.ok b, s2) => (.ok b, triggerAutomations env 1 s2)

/-- `StateBuffer.write` repackaged as a placement operation on a single
argument, for comparison with the hook-sandwich template. -/
def stateWriteOp (s : PB) (p : Item × Position) : Except PyErr Bool × PB :=
  stateWrite s p.1 p.2

/-- An item as it would be passed back into `write` (tuple/list/ndarray of
that shape and data). -/
def toPyItem (it : Item) : PyItem := .arrayLike it.shape it.data

/-! ## Concrete states and hook environments used in the theorems below -/

/-- Unwrap an `Except`-valued construction, with a fallback for the error
case (the uses below are all on the `ok` path). -/
def exceptStateD (e : Except PyErr PB) (d : PB) : PB :=
  match e with
  | .ok s => s
  | .error _ => d

/-- The signature of a one-parameter hook callable. -/
def sigOne : PySig := ⟨1, 0⟩

/-- A hook environment whose every action sets the `_isfull` flag, making
any action execution observable in the state. -/
def envFlip : HookEnv :=
  ⟨fun _ _ => true, fun _ s => ({ s with isfull := true }, 0)⟩

/-- A hook environment whose every action appends a mark to the column
`"n"` of `_automation_results`, counting action executions. -/
def envMark : HookEnv :=
  ⟨fun _ _ => true,
   fun _ s =>
     ({ s with autoResults := dictset s.autoResults "n" (dictget s.autoResults "n" ++ [1]) }, 0)⟩

/-- A capacity-2 scalar `RingBuffer` with one guardless BEFORE-WRITE hook
registered through `add_automation`. -/
def ringHooked : PB :=
  exceptStateD (addAutomation (ringInit 2 []) 0 sigOne 0 none none) (ringInit 2 [])

/-- A capacity-2 scalar `StateBuffer` (no namespace) with one guardless
BEFORE-WRITE hook registered through `add_automation`. -/
def stateHooked : PB :=
  exceptStateD
    (addAutomation (exceptStateD (stateInit 2 [] none) (bufferInit 2 [])) 0 sigOne 0 none none)
    (bufferInit 2 [])

/-- The spec scenario state: `RingBuffer(3, ())` after writing 1, 2, 3. -/
def c1AfterThree : PB :=
  ringWriteS (ringWriteS (ringWriteS (ringInit 3 []) (mkScalar 1)) (mkScalar 2)) (mkScalar 3)

/-- The spec scenario state after the fourth write. -/
def c1AfterFour : PB := ringWriteS c1AfterThree (mkScalar 4)

/-- A capacity-3 ring buffer on which the same hook callable was passed to
`add_automation` twice under BEFORE-WRITE. -/
def c4Twice : PB :=
  exceptStateD
    ((addAutomation (ringInit 3 []) 0 sigOne 0 none none).bind
      (fun s1 => addAutomation s1 0 sigOne 0 none none))
    (ringInit 3 [])

/-! ## Reachable states

States reachable through construction (with the positive capacity the
specification's §6 requires) followed by any sequence of the variant's own
write/read operations. -/

/-- States of a `RingBuffer` reachable from construction by
`_write_operation` / `_read_operation` steps. -/
inductive RingReach : PB → Prop where
  | init (size : Nat) (shape : List Nat) : 0 < size → RingReach (ringInit size shape)
  | wstep (s : PB) (it : PyItem) : RingReach s → RingReach (ringWriteS s it)
  | rstep (s : PB) : RingReach s → RingReach (ringReadOp s).2

/-- States of a `QueueBuffer` reachable from construction by
`_write_operation` / `_read_operation` steps. -/
inductive QueueReach : PB → Prop where
  | init (size : Nat) (shape : Option (List Nat)) (ow : Bool) :
      0 < size → QueueReach (queueInit size shape ow)
  | wstep (s : PB) (it : PyItem) : QueueReach s → QueueReach (queueWriteS s it)
  | rstep (s : PB) : QueueReach s → QueueReach (queueReadS s)

/-- States of a `StateBuffer` reachable from construction by `write` /
`read` steps (by index or by key). -/
inductive StateReach : PB → Prop where
  | init (size : Nat) (shape : List Nat) (ns : Option (List String)) (pb : PB) :
      0 < size → stateInit size shape ns = .ok pb → StateReach pb
  | wstep (s : PB) (it : Item) (p : Position) :
      StateReach s → StateReach (stateWrite s it p).2
  | rstep (s : PB) (p : Position) : StateReach s → StateReach (stateRead s p).2

/-- A ring write preserves positivity of the size and keeps both pointers
strictly below it. -/
theorem ringWriteS_ptr_inv (s : PB) (it : PyItem)
    (h : 0 < s.size ∧ s.wp < s.size ∧ s.rp < s.size) :
    0 < (ringWriteS s it).size ∧ (ringWriteS s it).wp < (ringWriteS s it).size ∧
      (ringWriteS s it).rp < (ringWriteS s it).size := by
  obtain ⟨h0, h1, h2⟩ := h
  cases it with
  | other => exact ⟨h0, h1, h2⟩
  | arrayLike shp d =>
    simp only [ringWriteS, ringWriteOp]
    split
    · exact ⟨h0, h1, h2⟩
    · split
      · exact ⟨h0, Nat.mod_lt _ h0, Nat.mod_lt _ h0⟩
      · exact ⟨h0, Nat.mod_lt _ h0, h2⟩

/-- A ring read preserves positivity of the size and keeps both pointers
strictly below it. -/
theorem ringReadOp_ptr_inv (s : PB)
    (h : 0 < s.size ∧ s.wp < s.size ∧ s.rp < s.size) :
    0 < (ringReadOp s).2.size ∧ (ringReadOp s).2.wp < (ringReadOp s).2.size ∧
      (ringReadOp s).2.rp < (ringReadOp s).2.size := by
  obtain ⟨h0, h1, h2⟩ := h
  simp only [ringReadOp]
  split
  · exact ⟨h0, h1, h2⟩
  · exact ⟨h0, h1, Nat.mod_lt _ h0⟩

/-- A queue write keeps the write pointer at most the size and does not
touch the read pointer or the size. -/
theorem queueWriteS_ptr_inv (s : PB) (it : PyItem)
    (h : s.wp ≤ s.size ∧ s.rp = 0) :
    (queueWriteS s it).wp ≤ (queueWriteS s it).size ∧ (queueWriteS s it).rp = 0 := by
  obtain ⟨h1, h2⟩ := h
  cases it with
  | other => exact ⟨h1, h2⟩
  | arrayLike shp d =>
    simp only [queueWriteS, queueWriteOp]
    split
    · exact ⟨h1, h2⟩
    · split
      · split
        · exact ⟨h1, h2⟩
        · exact ⟨h1, h2⟩
      · simp only [queueAdvanceWritePointer]
        split
        · next hlt => exact ⟨hlt, h2⟩
        · exact ⟨h1, h2⟩

/-- A queue read keeps the write pointer at most the size and does not
touch the read pointer or the size. -/
theorem queueReadS_ptr_inv (s : PB)
    (h : s.wp ≤ s.size ∧ s.rp = 0) :
    (queueReadS s).wp ≤ (queueReadS s).size ∧ (queueReadS s).rp = 0 := by
  obtain ⟨h1, h2⟩ := h
  simp only [queueReadS, queueReadOp]
  split
  · exact ⟨h1, h2⟩
  · exact ⟨Nat.le_trans (Nat.sub_le _ _) h1, h2⟩

/-- `StateBuffer.write` can only change the slab: every other field of the
object is left exactly as it was. -/
theorem stateWrite_fields (s : PB) (it : Item) (p : Position) :
    (stateWrite s it p).2.size = s.size ∧ (stateWrite s it p).2.wp = s.wp ∧
      (stateWrite s it p).2.rp = s.rp ∧ (stateWrite s it p).2.isempty = s.isempty ∧
      (stateWrite s it p).2.isfull = s.isfull ∧ (stateWrite s it p).2.autos = s.autos ∧
      (stateWrite s it p).2.autoResults = s.autoResults := by
  unfold stateWrite
  cases p with
  | idx i =>
    cases hns : s.nameSpace with
    | none =>
      simp only
      split
      · exact ⟨rfl, rfl, rfl, rfl, rfl, rfl, rfl⟩
      · exact ⟨rfl, rfl, rfl, rfl, rfl, rfl, rfl⟩
    | some ns => exact ⟨rfl, rfl, rfl, rfl, rfl, rfl, rfl⟩
  | key k =>
    cases hns : s.nameSpace with
    | none => exact ⟨rfl, rfl, rfl, rfl, rfl, rfl, rfl⟩
    | some ns =>
      simp only
      cases ns.findIdx? (fun x => x == k) with
      | none => exact ⟨rfl, rfl, rfl, rfl, rfl, rfl, rfl⟩
      | some i => exact ⟨rfl, rfl, rfl, rfl, rfl, rfl, rfl⟩

/-- `StateBuffer.read` never mutates the object at all. -/
theorem stateRead_snd (s : PB) (p : Position) : (stateRead s p).2 = s := by
  unfold stateRead
  cases p with
  | idx i =>
    cases hns : s.nameSpace with
    | none =>
      simp only
      split
      · rfl
      · rfl
    | some ns => rfl
  | key k =>
    cases hns : s.nameSpace with
    | none => rfl
    | some ns =>
      simp only
      cases ns.findIdx? (fun x => x == k) with
      | none => rfl
      | some i => rfl

/-- Every reachable `StateBuffer` state keeps the constructor's occupancy
flags and zero pointers. -/
theorem stateReach_fields (s : PB) (h : StateReach s) :
    s.isempty = true ∧ s.isfull = false ∧ s.wp = 0 ∧ s.rp = 0 := by
  induction h with
  | init size shape ns pb hpos hini =>
    cases ns with
    | none =>
      simp only [stateInit] at hini
      cases hini
      exact ⟨rfl, rfl, rfl, rfl⟩
    | some l =>
      simp only [stateInit] at hini
      split at hini
      · cases hini
      · cases hini
        exact ⟨rfl, rfl, rfl, rfl⟩
  | wstep s it p _ ih =>
    obtain ⟨e1, e2, e3, e4⟩ := ih
    obtain ⟨_, hwp, hrp, hie, hif, _, _⟩ := stateWrite_fields s it p
    exact ⟨hie.trans e1, hif.trans e2, hwp.trans e3, hrp.trans e4⟩
  | rstep s p _ ih => rw [stateRead_snd]; exact ih

/-- A valid write into a non-full queue places the item at the write
pointer and increments the pointer. -/
theorem queueWriteS_notFull (s : PB) (it : Item)
    (hsh : it.shape = s.shape) (hlt : s.wp < s.size) :
    queueWriteS s (toPyItem it) =
      { s with buffer := s.buffer.set s.wp it, wp := s.wp + 1 } := by
  have hfull : queueIsFull s = false := by
    simp [queueIsFull, Nat.not_le.mpr hlt]
  cases it with
  | mk shp d =>
    simp only at hsh
    subst hsh
    simp [queueWriteS, queueWriteOp, toPyItem, hfull, queueAdvanceWritePointer, hlt]

/-- Writing a fitting batch of valid items advances the write pointer by
the batch length and lays the batch down right after the slots already
holding data. -/
theorem queueWriteAll_take (xs : List Item) : ∀ (s : PB),
    s.buffer.length = s.size →
    s.wp + xs.length ≤ s.size →
    (∀ it ∈ xs, it.shape = s.shape) →
    (queueWriteAll s (xs.map toPyItem)).wp = s.wp + xs.length ∧
    (queueWriteAll s (xs.map toPyItem)).size = s.size ∧
    (queueWriteAll s (xs.map toPyItem)).buffer.length = s.size ∧
    (queueWriteAll s (xs.map toPyItem)).buffer.take (s.wp + xs.length) =
      s.buffer.take s.wp ++ xs := by
  induction xs with
  | nil =>
    intro s h1 h2 h3
    simp [queueWriteAll, h1]
  | cons x rest ih =>
    intro s h1 h2 h3
    have hlt : s.wp < s.size := by
      have := h2
      simp only [List.length_cons] at this
      omega
    have hsh : x.shape = s.shape := h3 x (by simp)
    have hstep := queueWriteS_notFull s x hsh hlt
    set s' : PB := { s with buffer := s.buffer.set s.wp x, wp := s.wp + 1 } with hs'
    have h1' : s'.buffer.length = s'.size := by
      simp [hs', List.length_set, h1]
    have h2' : s'.wp + rest.length ≤ s'.size := by
      simp only [hs', List.length_cons] at h2 ⊢
      omega
    have h3' : ∀ it ∈ rest, it.shape = s'.shape := by
      intro it hit
      exact h3 it (by simp [hit])
    have hmain := ih s' h1' h2' h3'
    have hfold : queueWriteAll s ((x :: rest).map toPyItem) =
        queueWriteAll s' (rest.map toPyItem) := by
      simp [queueWriteAll, hstep]
    rw [hfold]
    obtain ⟨e1, e2, e3, e4⟩ := hmain
    refine ⟨?_, ?_, ?_, ?_⟩
    · rw [e1]; simp only [hs', List.length_cons]; omega
    · rw [e2]
    · rw [e3]
    · have hwplen : s.wp + (x :: rest).length = s'.wp + rest.length := by
        simp only [hs', List.length_cons]; omega
      rw [hwplen, e4]
      have hset : s'.buffer.take s'.wp = s.buffer.take s.wp ++ [x] := by
        show (s.buffer.set s.wp x).take (s.wp + 1) = s.buffer.take s.wp ++ [x]
        rw [List.set_eq_take_cons_drop x (h1 ▸ hlt)]
        rw [List.take_append_eq_append_take]
        have hl : (s.buffer.take s.wp).length = s.wp := by
          rw [List.length_take]
          omega
        rw [List.take_take]
        simp [hl, Nat.min_eq_right, Nat.le_succ]
      rw [hset, List.append_assoc]
      simp

/-- Reading as many times as there are live elements returns exactly the
front segment of the slab, in order. -/
theorem queueReadN_fifo (ys : List Item) : ∀ (s : PB),
    s.wp = ys.length →
    s.buffer.take ys.length = ys →
    (queueReadN ys.length s).1 = ys.map some := by
  induction ys with
  | nil => intro s h1 h2; simp [queueReadN]
  | cons y t ih =>
    intro s h1 h2
    have hne : queueIsEmpty s = false := by
      simp [queueIsEmpty, h1]
    cases hb : s.buffer with
    | nil => rw [hb] at h2; simp at h2
    | cons a b =>
      rw [hb] at h2
      simp only [List.length_cons, List.take_succ_cons, List.cons.injEq] at h2
      obtain ⟨hay, hbt⟩ := h2
      have hlen : t.length ≤ b.length := by
        have := congrArg List.length hbt
        rw [List.length_take] at this
        omega
      simp only [List.length_cons, queueReadN]
      have hro : queueReadOp s =
          (some a, { s with buffer := b ++ [b.getLastD a], wp := s.wp - 1 }) := by
        simp [queueReadOp, hne, hb, shiftLeftKeepLast]
      rw [hro]
      simp only
      have ih' := ih { s with buffer := b ++ [b.getLastD a], wp := s.wp - 1 }
        (by simp [h1]) (by simp [List.take_append_of_le_length hlen, hbt])
      rw [ih', hay]
      simp

/-! ## The claims -/

/-- C1: evaluating the spec scenario on the code. `RingBuffer(3, ())` after
writing 1, 2, 3 reports `is_full = true`, and after writing 4 the first
three reads return 2, 3, 4 as the claim states — but the fourth read on the
drained buffer returns the stale element 2 instead of the empty-signal
`None`, because the content-heuristic `is_full` misreports the drained
buffer (pointers equal, slot nonzero) as full, so `is_empty` is false. -/
theorem c1_ring_scenario_stale_read :
    ringIsFull c1AfterThree = true ∧
    (ringReadN 4 c1AfterFour).1 =
      [some (scalarItem 2), some (scalarItem 3), some (scalarItem 4), some (scalarItem 2)] := by
  decide

/-- C2: the content-heuristic occupancy tracking falsifies the claim on the
code. After capacity-many (= 2) all-zero writes to an empty `RingBuffer`,
`is_full` is still false and `is_empty` still true; and already after the
first (nonzero) write, `is_empty` is true again, not only before the first
write. -/
theorem c2_ring_occupancy_heuristic_fails :
    ringIsFull (ringWriteS (ringWriteS (ringInit 2 []) (mkScalar 0)) (mkScalar 0)) = false ∧
    ringIsEmpty (ringWriteS (ringWriteS (ringInit 2 []) (mkScalar 0)) (mkScalar 0)) = true ∧
    ringIsEmpty (ringWriteS (ringInit 3 []) (mkScalar 1)) = true := by
  decide

/-- C3 (counterexample): the claim that no BEFORE-WRITE action executes on a
malformed write is false on the code.  With one registered BEFORE-WRITE
hook whose action sets the `_isfull` flag, writing a shape-mismatched item
to a `RingBuffer` raises `ValueError` — but the flag is set in the state
left behind, so the action did run before validation. -/
theorem c3_hook_action_runs_before_validation :
    (ringWrite envFlip ringHooked (PyItem.arrayLike [5] [0, 0, 0, 0, 0])).1 =
      .error .valueError ∧
    (ringWrite envFlip ringHooked (PyItem.arrayLike [5] [0, 0, 0, 0, 0])).2.isfull = true ∧
    ringHooked.isfull = false :=
  ⟨rfl, rfl, rfl⟩

/-- C3 (amended): a `write` whose item fails the type or shape validation
raises `ValueError` with no slot or pointer mutation and no AFTER-WRITE
hook — but only after the BEFORE-WRITE hook set has run: the state left
behind is exactly the post-BEFORE-WRITE-hooks state. -/
theorem c3_validation_raises_after_before_hooks (env : HookEnv) (s : PB) (item : PyItem)
    (h : item = PyItem.other ∨
      ∃ shp d, item = PyItem.arrayLike shp d ∧ shp ≠ (triggerAutomations env 0 s).shape) :
    ringWrite env s item = (.error .valueError, triggerAutomations env 0 s) := by
  rcases h with h | ⟨shp, d, hit, hne⟩
  · subst h; rfl
  · subst hit
    simp [ringWrite, bufferWrite, ringWriteOp, hne]

/-- C3 witness: the amended statement at a concrete malformed write. -/
theorem c3_validation_raises_after_before_hooks_witness :
    ringWrite envFlip (ringInit 2 []) PyItem.other =
      (.error .valueError, triggerAutomations envFlip 0 (ringInit 2 [])) :=
  c3_validation_raises_after_before_hooks envFlip (ringInit 2 []) PyItem.other (Or.inl rfl)

/-- C4: duplicate registration is NOT a no-op on the code.  Registering the
identical callable twice under BEFORE-WRITE leaves two identical entries in
the event's hook list (the source's membership test compares the function
against stored 3-tuples, which never compare equal), and a single public
`write` then runs the action twice — here counted by the two marks the
action leaves in the `"n"` results column. -/
theorem c4_duplicate_registration_appends :
    c4Twice.autos.get 0 = [⟨none, 0, none⟩, ⟨none, 0, none⟩] ∧
    dictget (ringWrite envMark c4Twice (mkScalar 7)).2.autoResults "n" = [1, 1] := by
  decide

/-- C5 (counterexample): the claim that both pointers always lie in
`[0, capacity)` fails for `QueueBuffer`: after one successful write to a
capacity-1 queue the write pointer equals the capacity. -/
theorem c5_queue_write_pointer_reaches_capacity :
    (queueWriteS (queueInit 1 none false) (mkScalar 5)).wp =
      (queueWriteS (queueInit 1 none false) (mkScalar 5)).size ∧
    ¬ ((queueWriteS (queueInit 1 none false) (mkScalar 5)).wp <
        (queueWriteS (queueInit 1 none false) (mkScalar 5)).size) := by
  decide

/-- C5 (amended): over every state reachable by construction (positive
capacity) and write/read steps, `RingBuffer` keeps both pointers in
`[0, capacity)`; `QueueBuffer` keeps its write pointer (the live count) in
`[0, capacity]` — reaching `capacity` exactly when full — and never moves
its read pointer from 0; `StateBuffer` never moves either pointer. -/
theorem c5_pointer_ranges (s : PB) :
    (RingReach s → 0 < s.size ∧ s.wp < s.size ∧ s.rp < s.size) ∧
    (QueueReach s → s.wp ≤ s.size ∧ s.rp = 0) ∧
    (StateReach s → s.wp = 0 ∧ s.rp = 0) := by
  refine ⟨?_, ?_, ?_⟩
  · intro h
    induction h with
    | init size shape hpos => exact ⟨hpos, hpos, hpos⟩
    | wstep s it _ ih => exact ringWriteS_ptr_inv s it ih
    | rstep s _ ih => exact ringReadOp_ptr_inv s ih
  · intro h
    induction h with
    | init size shape ow hpos => exact ⟨Nat.zero_le _, rfl⟩
    | wstep s it _ ih => exact queueWriteS_ptr_inv s it ih
    | rstep s _ ih => exact queueReadS_ptr_inv s ih
  · intro h
    have hf := stateReach_fields s h
    exact ⟨hf.2.2.1, hf.2.2.2⟩

/-- C5 witness: the amended pointer ranges at concrete reachable states of
each variant. -/
theorem c5_pointer_ranges_witness :
    (0 < (ringInit 2 []).size ∧ (ringInit 2 []).wp < (ringInit 2 []).size ∧
      (ringInit 2 []).rp < (ringInit 2 []).size) ∧
    ((queueWriteS (queueInit 2 none false) (mkScalar 5)).wp ≤
        (queueWriteS (queueInit 2 none false) (mkScalar 5)).size ∧
      (queueWriteS (queueInit 2 none false) (mkScalar 5)).rp = 0) ∧
    ((stateWrite (bufferInit 2 []) (scalarItem 3) (Position.idx 0)).2.wp = 0 ∧
      (stateWrite (bufferInit 2 []) (scalarItem 3) (Position.idx 0)).2.rp = 0) :=
  ⟨(c5_pointer_ranges _).1 (RingReach.init 2 [] (by decide)),
   (c5_pointer_ranges _).2.1
     (QueueReach.wstep _ _ (QueueReach.init 2 none false (by decide))),
   (c5_pointer_ranges _).2.2
     (StateReach.wstep _ _ _ (StateReach.init 2 [] none _ (by decide) rfl))⟩

/-- C6: the FIFO round-trip holds for `QueueBuffer` — writing any batch of
`N ≤ capacity` valid items into an empty queue and reading `N` times
returns them in writing order — but fails for `RingBuffer`: on the
concrete input `RingBuffer(3, ())`, one write of the element 5 followed by
one read returns `None` instead of 5, because the first nonzero write trips
the content-heuristic `is_full` and evicts the read pointer past the data. -/
theorem c6_fifo_roundtrip :
    (∀ (xs : List Item) (size : Nat) (shape : List Nat) (ow : Bool),
        xs.length ≤ size →
        (∀ it ∈ xs, it.shape = shape) →
        (queueReadN xs.length
            (queueWriteAll (queueInit size (some shape) ow) (xs.map toPyItem))).1
          = xs.map some) ∧
    (ringReadN 1 (ringWriteS (ringInit 3 []) (mkScalar 5))).1 = [none] := by
  constructor
  · intro xs size shape ow hlen hsh
    have h1 : (queueInit size (some shape) ow).buffer.length =
        (queueInit size (some shape) ow).size := by
      simp [queueInit, bufferInit]
    have h2 : (queueInit size (some shape) ow).wp + xs.length ≤
        (queueInit size (some shape) ow).size := by
      simpa [queueInit, bufferInit] using hlen
    have h3 : ∀ it ∈ xs, it.shape = (queueInit size (some shape) ow).shape := by
      intro it hit
      simpa [queueInit, bufferInit] using hsh it hit
    obtain ⟨e1, _, _, e4⟩ := queueWriteAll_take xs _ h1 h2 h3
    apply queueReadN_fifo
    · simpa [queueInit, bufferInit] using e1
    · simpa [queueInit, bufferInit] using e4
  · decide

/-- C6 witness: the queue round-trip at a concrete two-element batch. -/
theorem c6_fifo_roundtrip_witness :
    (queueReadN 2 (queueWriteAll (queueInit 3 (some []) false)
        ([scalarItem 7, scalarItem 9].map toPyItem))).1
      = [scalarItem 7, scalarItem 9].map some :=
  c6_fifo_roundtrip.1 [scalarItem 7, scalarItem 9] 3 [] false (by decide) (by decide)

/-- C7: a valid write to a full `QueueBuffer` with overwrite disabled
returns `False` and leaves the whole object — every slot, the write
pointer and the read pointer — exactly as it was, raising nothing. -/
theorem c7_full_queue_write_fails_without_mutation (s : PB) (shp : List Nat) (d : List Int)
    (hfull : queueIsFull s = true) (how : s.overWrite = false) (hsh : shp = s.shape) :
    queueWriteOp s (PyItem.arrayLike shp d) = (.ok false, s) := by
  subst hsh
  simp [queueWriteOp, hfull, how]

/-- C7 witness: the failure-without-mutation at a concrete full queue. -/
theorem c7_full_queue_write_fails_without_mutation_witness :
    queueIsFull (queueWriteS (queueInit 1 none false) (mkScalar 5)) = true ∧
    queueWriteOp (queueWriteS (queueInit 1 none false) (mkScalar 5))
        (PyItem.arrayLike [] [9]) =
      (.ok false, queueWriteS (queueInit 1 none false) (mkScalar 5)) :=
  ⟨by decide,
   c7_full_queue_write_fails_without_mutation _ [] [9] (by decide) (by decide) (by decide)⟩

/-- C8 (counterexample): `StateBuffer.write` does not run the hook
lifecycle the claim asserts for every variant.  On a `StateBuffer` with one
registered BEFORE-WRITE hook whose action sets the `_isfull` flag, the
actual `write` leaves the flag untouched, while the claimed
hooks-placement-hooks template would have set it. -/
theorem c8_statebuffer_write_skips_hooks :
    (stateWrite stateHooked (scalarItem 1) (Position.idx 0)).2 ≠
      (hookedWrite envFlip stateWriteOp stateHooked (scalarItem 1, Position.idx 0)).2 ∧
    (stateWrite stateHooked (scalarItem 1) (Position.idx 0)).2.isfull = false ∧
    (hookedWrite envFlip stateWriteOp stateHooked (scalarItem 1, Position.idx 0)).2.isfull = true := by
  decide

/-- C8 (amended): the template-method lifecycle holds for `RingBuffer` and
`QueueBuffer` writes — BEFORE-WRITE hook set, then the variant's placement
algorithm, then the AFTER-WRITE hook set; their public reads fire the
BEFORE-READ hook set and then raise `TypeError`, so the read algorithm and
AFTER-READ hooks never run; and `StateBuffer`'s overriding `write`/`read`
invoke no hooks at all (its write leaves the hook tables and result columns
untouched, its read leaves the whole object untouched). -/
theorem c8_lifecycle_per_variant :
    (∀ (env : HookEnv) (s : PB) (it : PyItem),
        ringWrite env s it = hookedWrite env ringWriteOp s it) ∧
    (∀ (env : HookEnv) (s : PB) (it : PyItem),
        queueWrite env s it = hookedWrite env queueWriteOp s it) ∧
    (∀ (env : HookEnv) (s : PB),
        ringRead env s = (.error .typeError, triggerAutomations env 2 s)) ∧
    (∀ (env : HookEnv) (s : PB),
        queueRead env s = (.error .typeError, triggerAutomations env 2 s)) ∧
    (∀ (s : PB) (it : Item) (p : Position),
        (stateWrite s it p).2.autos = s.autos ∧
        (stateWrite s it p).2.autoResults = s.autoResults ∧
        (stateRead s p).2 = s) := by
  refine ⟨fun env s it => rfl, fun env s it => rfl, fun env s => rfl, fun env s => rfl,
    fun s it p => ?_⟩
  obtain ⟨_, _, _, _, _, h6, h7⟩ := stateWrite_fields s it p
  exact ⟨h6, h7, stateRead_snd s p⟩

/-- C9: on every reachable `StateBuffer` state the inherited occupancy
queries are frozen at their construction values: `is_empty` is always true
and `is_full` always false, since no `StateBuffer` operation ever updates
the `_isempty` / `_isfull` flags. -/
theorem c9_statebuffer_flags_constant (s : PB) (h : StateReach s) :
    bufferIsEmpty s = true ∧ bufferIsFull s = false := by
  have hf := stateReach_fields s h
  exact ⟨hf.1, hf.2.1⟩

/-- C9 witness: the frozen flags after a concrete write. -/
theorem c9_statebuffer_flags_constant_witness :
    bufferIsEmpty (stateWrite (bufferInit 2 []) (scalarItem 3) (Position.idx 1)).2 = true ∧
    bufferIsFull (stateWrite (bufferInit 2 []) (scalarItem 3) (Position.idx 1)).2 = false :=
  c9_statebuffer_flags_constant _
    (StateReach.wstep _ _ _ (StateReach.init 2 [] none _ (by decide) rfl))

/-- C10: in every state and under every hook environment, the public `read`
inherited from `Buffer` raises `TypeError` for both `RingBuffer` and
`QueueBuffer`: `Buffer.read` passes `with_automation_results` to
`_read_operation`, whose override in both variants accepts only `self`, so
the call never binds and the documented empty-signal/element result is
never returned through the public `read`. -/
theorem c10_public_read_always_type_error (env : HookEnv) (s : PB) :
    (ringRead env s).1 = .error .typeError ∧ (queueRead env s).1 = .error .typeError :=
  ⟨rfl, rfl⟩

end PyBuffer
